import Mathlib

/-!
Verification of the order/checkout engine of the yenflowers store backend
(`backend/app/routers/orders.py`).

The Python routes are shallowly embedded as pure Lean functions over an
explicit database state.  Machine integers are modelled as `Nat`/`Int`
(Python integers are unbounded); monetary amounts are `Nat` (the data
model declares all amounts as non-negative integers in the base currency
unit), while `stock_quantity` is an `Int` because the stock decrement
loop can drive it below zero.  Python string operations used by the code
(`str.lower`, `str.upper`, `str.replace`) are modelled on the character
list of the string, with `Char.toLower`/`Char.toUpper` (the inputs of
interest are ASCII except for already-lowercase Vietnamese letters,
on which Python lowercasing is also the identity).  Python truthiness
of `None`, `0` and `""` is modelled explicitly where the source relies
on it (`sale_price or price`, `d.get("max_uses") and ...`,
`if order_data.discount_code:`, credential checks).
-/

/-- Model of Python `str.replace` on character lists: replaces every
non-overlapping occurrence of `pat` from the left.  The fuel argument
keeps the recursion structural; `replaceAll` supplies enough fuel. -/
def replaceAllAux (pat repl : List Char) : Nat → List Char → List Char
  | _, [] => []
  | 0, s => s
  | fuel + 1, c :: rest =>
    if pat ≠ [] ∧ pat.isPrefixOf (c :: rest) then
      repl ++ replaceAllAux pat repl fuel (rest.drop (pat.length - 1))
    else
      c :: replaceAllAux pat repl fuel rest

/-- Python `s.replace(pat, repl)` on character lists. -/
def replaceAll (pat repl s : List Char) : List Char :=
  replaceAllAux pat repl s.length s

/-- Python `s.upper()` (ASCII case mapping). -/
def pyUpper (s : String) : String :=
  String.mk (s.data.map Char.toUpper)

/-- Python truthiness of an optional string: `None` and `""` are falsy. -/
def pyFalsyStr : Option String → Bool
  | none => true
  | some s => s.data.isEmpty

/-- Row of the `products` table (the fields read by checkout). -/
structure Product where
  id : Nat
  name_vi : String
  is_published : Bool
  price : Nat
  sale_price : Option Nat
  stock_quantity : Int
  deriving Repr, DecidableEq

/-- Row of the `product_variants` table. -/
structure ProductVariant where
  id : Nat
  product_id : Nat
  name_vi : String
  price_adjustment : Nat
  deriving Repr, DecidableEq

/-- Row of the `discount_codes` table.  Timestamps are modelled as
integers (the code only compares parsed timestamps with `now`). -/
structure DiscountCode where
  id : Nat
  code : String
  is_active : Bool
  discount_type : String
  discount_value : Nat
  min_order_value : Option Nat
  max_uses : Option Nat
  used_count : Nat
  starts_at : Option Int
  expires_at : Option Int
  deriving Repr, DecidableEq

/-- The `shipping_address` payload of a checkout request. -/
structure ShippingAddress where
  full_name : String
  phone : String
  address_line : String
  ward : Option String
  district : String
  city : String
  deriving Repr, DecidableEq

/-- One line of the checkout request (`OrderItemCreate`). -/
structure CartItem where
  product_id : Nat
  variant_id : Option Nat
  quantity : Nat
  deriving Repr, DecidableEq

/-- The checkout request body (`OrderCreate`). -/
structure OrderCreate where
  items : List CartItem
  shipping_address : ShippingAddress
  payment_method : String
  customer_note : Option String
  delivery_date : Option String
  delivery_time_slot : Option String
  discount_code : Option String
  deriving Repr, DecidableEq

/-- Row of the `orders` table. -/
structure Order where
  id : Nat
  order_number : String
  shipping_address : ShippingAddress
  shipping_fee : Nat
  subtotal : Nat
  discount_amount : Nat
  total : Int
  payment_method : String
  customer_note : Option String
  delivery_date : Option String
  delivery_time_slot : Option String
  order_status : String
  payment_status : String
  payment_intent_id : Option String
  paid_at : Option Int
  deriving Repr, DecidableEq

/-- Row of the `order_items` table. -/
structure OrderItem where
  order_id : Nat
  product_id : Nat
  variant_id : Option Nat
  product_name : String
  variant_name : Option String
  quantity : Nat
  unit_price : Nat
  total_price : Nat
  deriving Repr, DecidableEq

/-- The database state touched by the order routes. -/
structure DB where
  products : List Product
  product_variants : List ProductVariant
  discount_codes : List DiscountCode
  orders : List Order
  order_items : List OrderItem
  deriving Repr, DecidableEq

/-- Decidable equality for `Except` results, used to evaluate concrete runs. -/
instance instDecEqExcept {e a : Type} [DecidableEq e] [DecidableEq a] :
    DecidableEq (Except e a) := fun x y =>
  match x, y with
  | Except.error u, Except.error v =>
    if h : u = v then isTrue (by rw [h]) else isFalse (by intro hh; cases hh; exact h rfl)
  | Except.ok u, Except.ok v =>
    if h : u = v then isTrue (by rw [h]) else isFalse (by intro hh; cases hh; exact h rfl)
  | Except.error _, Except.ok _ => isFalse (by intro hh; cases hh)
  | Except.ok _, Except.error _ => isFalse (by intro hh; cases hh)

/-- A calendar date, as produced by `date.today()`. -/
structure OrderDate where
  year : Nat
  month : Nat
  day : Nat
  deriving Repr, DecidableEq

/-- Python `"%02d"`-style padding used by `strftime` for month and day. -/
def pad2 (n : Nat) : String :=
  if n < 10 then "0" ++ Nat.repr n else Nat.repr n

/-- `date.strftime("%Y%m%d")` for a four-digit year. -/
def dateYYYYMMDD (d : OrderDate) : String :=
  Nat.repr d.year ++ pad2 d.month ++ pad2 d.day

/-- `generate_order_number`: the random suffix `random.randint(100, 999)`
is passed in explicitly. -/
def generate_order_number (today : OrderDate) (suffix : Nat) : String :=
  "YF-" ++ dateYYYYMMDD today ++ "-" ++ Nat.repr suffix

/-- The district key normalization performed by `calculate_delivery_fee`:
`district.lower().replace(" ", "_").replace("quận ", "").replace("quan ", "")`,
in exactly that order. -/
def normalizeDistrictKey (district : String) : List Char :=
  replaceAll "quan ".data []
    (replaceAll "quận ".data []
      (replaceAll " ".data "_".data (district.data.map Char.toLower)))

/-- `calculate_delivery_fee`: static district fee table with a 35000 VND
default for unknown keys. -/
def calculate_delivery_fee (district : String) : Nat :=
  let district_key := normalizeDistrictKey district
  if district_key = "1".data then 25000
  else if district_key = "3".data then 25000
  else if district_key = "5".data then 30000
  else if district_key = "7".data then 35000
  else if district_key = "tan_binh".data then 35000
  else if district_key = "go_vap".data then 40000
  else 35000

/-- `db.table("products").select("*").eq("id", pid)` followed by `.data[0]`. -/
def findProduct (db : DB) (pid : Nat) : Option Product :=
  db.products.find? (fun p => p.id == pid)

/-- `db.table("product_variants").select("*").eq("id", vid)` followed by `.data[0]`. -/
def findVariant (db : DB) (vid : Nat) : Option ProductVariant :=
  db.product_variants.find? (fun v => v.id == vid)

/-- `db.table("orders").select("*").eq("id", oid)` followed by `.data[0]`. -/
def findOrder (db : DB) (oid : Nat) : Option Order :=
  db.orders.find? (fun o => o.id == oid)

/-- Lookup of a discount code row by primary key. -/
def findDiscountById (codes : List DiscountCode) (i : Nat) : Option DiscountCode :=
  codes.find? (fun d => d.id == i)

/-- `prod.get("sale_price") or prod["price"]`: Python `or` falls back to
`price` when `sale_price` is `None` or `0` (both falsy). -/
def effectiveBasePrice (p : Product) : Nat :=
  match p.sale_price with
  | some s => if s = 0 then p.price else s
  | none => p.price

/-- The variant price adjustment actually added by the checkout loop:
`0` when no variant id was sent or when the id matches no variant row. -/
def variantAdjustment (db : DB) (vid? : Option Nat) : Nat :=
  match vid? with
  | none => 0
  | some vid =>
    match findVariant db vid with
    | none => 0
    | some v => v.price_adjustment

/-- The variant name recorded by the checkout loop: `null` when no
variant id was sent or when the id matches no variant row. -/
def variantNameLookup (db : DB) (vid? : Option Nat) : Option String :=
  match vid? with
  | none => none
  | some vid =>
    match findVariant db vid with
    | none => none
    | some v => some v.name_vi

/-- One iteration of the validation loop of `create_order` (lines 57-96):
fetch the product, check publication and stock, resolve the variant, and
build the order-item row.  `order_id` is a placeholder filled in when the
row is inserted. -/
def lineResult (db : DB) (it : CartItem) : Except (Nat × String) OrderItem :=
  match findProduct db it.product_id with
  | none => Except.error (400, "Product not found")
  | some p =>
    if !p.is_published then
      Except.error (400, "Product is not available")
    else if p.stock_quantity < (it.quantity : Int) then
      Except.error (400, "Insufficient stock")
    else
      let unit_price := effectiveBasePrice p + variantAdjustment db it.variant_id
      Except.ok
        { order_id := 0
          product_id := it.product_id
          variant_id := it.variant_id
          product_name := p.name_vi
          variant_name := variantNameLookup db it.variant_id
          quantity := it.quantity
          unit_price := unit_price
          total_price := unit_price * it.quantity }

/-- The whole validation loop: the first failing line aborts the cart. -/
def validateItems (db : DB) : List CartItem → Except (Nat × String) (List OrderItem)
  | [] => Except.ok []
  | it :: rest =>
    match lineResult db it with
    | Except.error e => Except.error e
    | Except.ok oi =>
      match validateItems db rest with
      | Except.error e => Except.error e
      | Except.ok ois => Except.ok (oi :: ois)

/-- The `discount_codes` query of `create_order` (line 104):
`.eq("code", order_data.discount_code.upper()).eq("is_active", True)`,
first matching row. -/
def findFirstDiscount (codes : List DiscountCode) (c : String) : Option DiscountCode :=
  codes.find? (fun d => d.code == pyUpper c && d.is_active)

/-- Condition of line 109: a start timestamp is present and lies after `now`. -/
def notStartedB (d : DiscountCode) (now : Int) : Bool :=
  match d.starts_at with
  | some t => now < t
  | none => false

/-- Condition of line 111: an expiry timestamp is present and lies before `now`. -/
def expiredB (d : DiscountCode) (now : Int) : Bool :=
  match d.expires_at with
  | some t => t < now
  | none => false

/-- Condition of line 113: `d.get("max_uses") and d.get("used_count", 0) >= d["max_uses"]`.
A missing or zero `max_uses` is falsy, so it imposes no limit. -/
def exhaustedB (d : DiscountCode) : Bool :=
  match d.max_uses with
  | some m => m != 0 && decide (m ≤ d.used_count)
  | none => false

/-- Condition of line 115: `d.get("min_order_value") and subtotal < d["min_order_value"]`.
A missing or zero `min_order_value` is falsy, so no minimum applies. -/
def belowMinB (d : DiscountCode) (subtotal : Nat) : Bool :=
  match d.min_order_value with
  | some v => v != 0 && decide (subtotal < v)
  | none => false

/-- All four validity guards pass, so the else-branch of lines 117-125 runs. -/
def discountApplies (d : DiscountCode) (subtotal : Nat) (now : Int) : Bool :=
  !notStartedB d now && !expiredB d now && !exhaustedB d && !belowMinB d subtotal

/-- Lines 119-122 of `create_order`: the discount amount, `int()` of the
percentage computation or of the raw value (floor division on these
non-negative integers). -/
def discountAmount (d : DiscountCode) (subtotal : Nat) : Nat :=
  if d.discount_type = "percentage" then subtotal * d.discount_value / 100
  else d.discount_value

/-- Lines 102-125 of `create_order`: resolve and apply the discount code,
returning the discount amount together with the updated `discount_codes`
table (the increment of `used_count` happens here, before the order is
written).  Python skips the lookup entirely for a falsy (absent or empty)
code string. -/
def applyDiscount (codes : List DiscountCode) (code? : Option String) (subtotal : Nat)
    (now : Int) : Nat × List DiscountCode :=
  match code? with
  | none => (0, codes)
  | some c =>
    if c.data.isEmpty then (0, codes)
    else
      match findFirstDiscount codes c with
      | none => (0, codes)
      | some d =>
        if notStartedB d now then (0, codes)
        else if expiredB d now then (0, codes)
        else if exhaustedB d then (0, codes)
        else if belowMinB d subtotal then (0, codes)
        else
          (discountAmount d subtotal,
           codes.map (fun x => if x.id == d.id then { x with used_count := d.used_count + 1 } else x))

/-- Lines 160-165 of `create_order`: for each request line re-read the
current stock and write back `stock - quantity`.  Later lines observe the
writes of earlier ones. -/
def decrementStockList (ps : List Product) : List CartItem → List Product
  | [] => ps
  | it :: rest =>
    match ps.find? (fun p => p.id == it.product_id) with
    | none => decrementStockList ps rest
    | some p =>
      decrementStockList
        (ps.map (fun q =>
          if q.id == it.product_id then
            { q with stock_quantity := p.stock_quantity - (it.quantity : Int) }
          else q))
        rest

/-- `subtotal` accumulated by the validation loop: the sum of the
`total_price` of the validated rows. -/
def checkoutSubtotal (order_items : List OrderItem) : Nat :=
  (order_items.map (fun oi => oi.total_price)).sum

/-- The order row assembled on lines 130-144 of `create_order`. -/
def checkoutOrderRow (db : DB) (order_data : OrderCreate) (now : Int) (today : OrderDate)
    (suffix : Nat) (order_items : List OrderItem) : Order :=
  let subtotal := checkoutSubtotal order_items
  let shipping_fee := calculate_delivery_fee order_data.shipping_address.district
  let discount_amount :=
    (applyDiscount db.discount_codes order_data.discount_code subtotal now).1
  { id := db.orders.length
    order_number := generate_order_number today suffix
    shipping_address := order_data.shipping_address
    shipping_fee := shipping_fee
    subtotal := subtotal
    discount_amount := discount_amount
    total := (subtotal : Int) + (shipping_fee : Int) - (discount_amount : Int)
    payment_method := order_data.payment_method
    customer_note := order_data.customer_note
    delivery_date := order_data.delivery_date
    delivery_time_slot := order_data.delivery_time_slot
    order_status := "pending"
    payment_status := "pending"
    payment_intent_id := none
    paid_at := none }

/-- The item rows inserted on lines 152-158, each carrying the new order id. -/
def checkoutCreatedItems (db : DB) (order_items : List OrderItem) : List OrderItem :=
  order_items.map (fun oi => { oi with order_id := db.orders.length })

/-- The database state after a successful checkout. -/
def checkoutDB (db : DB) (order_data : OrderCreate) (now : Int) (today : OrderDate)
    (suffix : Nat) (order_items : List OrderItem) : DB :=
  { products := decrementStockList db.products order_data.items
    product_variants := db.product_variants
    discount_codes :=
      (applyDiscount db.discount_codes order_data.discount_code
        (checkoutSubtotal order_items) now).2
    orders := db.orders ++ [checkoutOrderRow db order_data now today suffix order_items]
    order_items := db.order_items ++ checkoutCreatedItems db order_items }

/-- The success path of `create_order` after validation (lines 98-171):
pricing, discount, order row, item rows, stock decrement. -/
def checkoutFinish (db : DB) (order_data : OrderCreate) (now : Int) (today : OrderDate)
    (suffix : Nat) (order_items : List OrderItem) :
    DB × Except (Nat × String) (Order × List OrderItem) :=
  (checkoutDB db order_data now today suffix order_items,
   Except.ok (checkoutOrderRow db order_data now today suffix order_items,
              checkoutCreatedItems db order_items))

/-- `POST /orders/checkout` (`create_order`).  `now` stands for
`datetime.utcnow()`, `today`/`suffix` for the values drawn inside
`generate_order_number`.  The returned state reflects every write the
request performed before returning or raising. -/
def create_order (db : DB) (order_data : OrderCreate) (now : Int) (today : OrderDate)
    (suffix : Nat) : DB × Except (Nat × String) (Order × List OrderItem) :=
  if order_data.items.isEmpty then (db, Except.error (400, "Cart is empty"))
  else
    match validateItems db order_data.items with
    | Except.error e => (db, Except.error e)
    | Except.ok order_items => checkoutFinish db order_data now today suffix order_items

/-- The Stripe webhook payload fields read by the handler: the event type
and `data.object.metadata.order_id` (absent metadata gives `none`). -/
structure StripeWebhookPayload where
  event_type : Option String
  metadata_order_id : Option Nat
  deriving Repr, DecidableEq

/-- The order update applied for a `checkout.session.completed` event. -/
def stripeMarkPaid (oid : Nat) (now : Int) (o : Order) : Order :=
  if o.id == oid then
    { o with payment_status := "paid", order_status := "confirmed", paid_at := some now }
  else o

/-- `POST /orders/webhook/stripe` (`stripe_webhook`): on a completed
checkout session with an order id in the metadata, mark that order paid
and confirmed; in every case answer `200 {received: true}` (the Bool). -/
def stripe_webhook (payload : StripeWebhookPayload) (now : Int) (db : DB) : DB × Bool :=
  if payload.event_type == some "checkout.session.completed" then
    match payload.metadata_order_id with
    | some oid => ({ db with orders := db.orders.map (stripeMarkPaid oid now) }, true)
    | none => (db, true)
  else (db, true)

/-- The PayPal credentials of the application settings. -/
structure PayPalSettings where
  paypal_client_id : Option String
  paypal_client_secret : Option String
  paypal_mode : String
  deriving Repr, DecidableEq

/-- Outcome of the network exchange with PayPal: whether the OAuth token
request succeeded, and the HTTP status code plus reported order status of
the capture call and of the fallback order-details call. -/
structure PayPalExchange where
  token_ok : Bool
  capture_status_code : Nat
  capture_status : String
  details_status_code : Nat
  details_status : String
  deriving Repr, DecidableEq

/-- The provider status `capture_paypal_order` ends up inspecting: the
capture response when its HTTP status is 200 or 201, otherwise the
details response when that returns 200, otherwise none (lines 316-326). -/
def paypalFinalStatus (ex : PayPalExchange) : Option String :=
  if ex.capture_status_code == 201 || ex.capture_status_code == 200 then some ex.capture_status
  else if ex.details_status_code == 200 then some ex.details_status
  else none

/-- The order update of lines 336-342. -/
def paypalMarkPaid (oid : Nat) (paypal_order_id : String) (now : Int) (o : Order) : Order :=
  if o.id == oid then
    { o with payment_status := "paid", order_status := "confirmed",
             payment_method := "paypal", payment_intent_id := some paypal_order_id,
             paid_at := some now }
  else o

/-- `POST /orders/{id}/payment/paypal/capture` (`capture_paypal_order`). -/
def capture_paypal_order (st : PayPalSettings) (ex : PayPalExchange) (db : DB)
    (order_id : Nat) (paypal_order_id : String) (now : Int) :
    DB × Except (Nat × String) String :=
  if pyFalsyStr st.paypal_client_id || pyFalsyStr st.paypal_client_secret then
    (db, Except.error (500, "PayPal not configured"))
  else
    match findOrder db order_id with
    | none => (db, Except.error (404, "Order not found"))
    | some _ =>
      if !ex.token_ok then (db, Except.error (400, "PayPal API Error"))
      else
        match paypalFinalStatus ex with
        | none => (db, Except.error (400, "Failed to verify PayPal order"))
        | some s =>
          if s ≠ "COMPLETED" then
            (db, Except.error (400, "PayPal order status: " ++ s))
          else
            ({ db with orders := db.orders.map (paypalMarkPaid order_id paypal_order_id now) },
             Except.ok "success")

/-- Number of decimal digits of a natural number. -/
def numLen (n : Nat) : Nat :=
  if n < 10 then 1 else numLen (n / 10) + 1
termination_by n
decreasing_by
  simp_wf
  omega

/-- `Nat.toDigitsCore` emits exactly `numLen n` digit characters when it
has enough fuel. -/
theorem toDigitsCore_length_exact :
    ∀ (f n : Nat) (ds : List Char), n < f →
      (Nat.toDigitsCore 10 f n ds).length = numLen n + ds.length := by
  intro f
  induction f with
  | zero => intro n ds h; exact absurd h (Nat.not_lt_zero n)
  | succ f ih =>
    intro n ds h
    rw [Nat.toDigitsCore]
    by_cases h10 : n / 10 = 0
    · have hn : n < 10 := by omega
      rw [if_pos h10, numLen]
      simp [hn]
      omega
    · have hn : ¬ n < 10 := by omega
      rw [if_neg h10]
      rw [ih (n / 10) (Nat.digitChar (n % 10) :: ds) (by omega)]
      have hstep : numLen n = numLen (n / 10) + 1 := by
        rw [numLen]; simp [hn]
      rw [hstep]
      simp [List.length_cons]
      omega

/-- The length of the decimal string of `n` is its digit count. -/
theorem repr_length_eq_numLen (n : Nat) : (Nat.repr n).length = numLen n := by
  show (Nat.toDigits 10 n).asString.length = numLen n
  rw [Nat.toDigits]
  have : (Nat.toDigitsCore 10 (n + 1) n []).length = numLen n + ([] : List Char).length :=
    toDigitsCore_length_exact (n + 1) n [] (Nat.lt_succ_self n)
  simpa [List.asString, String.length] using this

/-- Every character `Nat.toDigitsCore` adds is a decimal digit. -/
theorem toDigitsCore_all_digits :
    ∀ (f n : Nat) (ds : List Char), (∀ c ∈ ds, c.isDigit = true) →
      ∀ c ∈ Nat.toDigitsCore 10 f n ds, c.isDigit = true := by
  have hd : ∀ m : Nat, m < 10 → (Nat.digitChar m).isDigit = true := by decide
  intro f
  induction f with
  | zero => intro n ds hds; simpa [Nat.toDigitsCore] using hds
  | succ f ih =>
    intro n ds hds
    rw [Nat.toDigitsCore]
    by_cases h10 : n / 10 = 0
    · rw [if_pos h10]
      intro c hc
      rcases List.mem_cons.mp hc with h | h
      · subst h; exact hd _ (Nat.mod_lt _ (by omega))
      · exact hds c h
    · rw [if_neg h10]
      refine ih (n / 10) _ ?_
      intro c hc
      rcases List.mem_cons.mp hc with h | h
      · subst h; exact hd _ (Nat.mod_lt _ (by omega))
      · exact hds c h

/-- The decimal string of `n` consists of digit characters only. -/
theorem repr_all_digits (n : Nat) : (Nat.repr n).data.all Char.isDigit = true := by
  rw [List.all_eq_true]
  show ∀ c ∈ (Nat.toDigits 10 n).asString.data, c.isDigit = true
  rw [Nat.toDigits]
  intro c hc
  exact toDigitsCore_all_digits (n + 1) n [] (by simp) c (by simpa [List.asString] using hc)

/-- A number in `[100, 999]` prints with exactly three digits. -/
theorem repr_length_three (n : Nat) (h1 : 100 ≤ n) (h2 : n ≤ 999) :
    (Nat.repr n).length = 3 := by
  rw [repr_length_eq_numLen]
  rw [numLen]; simp only [if_neg (by omega : ¬ n < 10)]
  rw [numLen]; simp only [if_neg (by omega : ¬ n / 10 < 10)]
  rw [numLen]; simp only [if_pos (by omega : n / 10 / 10 < 10)]

/-- A number in `[1000, 9999]` prints with exactly four digits. -/
theorem repr_length_four (n : Nat) (h1 : 1000 ≤ n) (h2 : n ≤ 9999) :
    (Nat.repr n).length = 4 := by
  rw [repr_length_eq_numLen]
  rw [numLen]; simp only [if_neg (by omega : ¬ n < 10)]
  rw [numLen]; simp only [if_neg (by omega : ¬ n / 10 < 10)]
  rw [numLen]; simp only [if_neg (by omega : ¬ n / 10 / 10 < 10)]
  rw [numLen]; simp only [if_pos (by omega : n / 10 / 10 / 10 < 10)]

/-- Updating the rows whose key equals `i` commutes with looking up the
first row with key `j`, provided the update preserves keys. -/
theorem find?_map_keyed {α : Type} (key : α → Nat) (i j : Nat) (f : α → α)
    (hf : ∀ x, key (f x) = key x) (l : List α) :
    (l.map (fun x => if key x == i then f x else x)).find? (fun x => key x == j) =
      (l.find? (fun x => key x == j)).map (fun x => if key x == i then f x else x) := by
  induction l with
  | nil => rfl
  | cons a t ih =>
    simp only [List.map_cons]
    by_cases hj : (key a == j) = true
    · have hj2 : (key (if key a == i then f a else a) == j) = true := by
        by_cases hi : (key a == i) = true <;> simp only [hi, if_true, if_false, hf] <;> exact hj
      rw [List.find?_cons_of_pos (p := fun x => key x == j) _ hj2,
         List.find?_cons_of_pos (p := fun x => key x == j) _ hj]
      simp
    · have hj2 : ¬ ((key (if key a == i then f a else a) == j) = true) := by
        by_cases hi : (key a == i) = true <;> simp [hi, hf] at hj ⊢ <;> omega
      rw [List.find?_cons_of_neg (p := fun x => key x == j) _ hj2,
         List.find?_cons_of_neg (p := fun x => key x == j) _ hj]
      exact ih

/-- In a list with pairwise distinct keys, looking up the key of a member
returns exactly that member. -/
theorem find?_key_of_nodup {α : Type} (key : α → Nat) (l : List α)
    (hnd : (l.map key).Nodup) {d : α} (hd : d ∈ l) :
    l.find? (fun x => key x == key d) = some d := by
  induction l with
  | nil => cases hd
  | cons a t ih =>
    rw [List.map_cons, List.nodup_cons] at hnd
    rcases List.mem_cons.mp hd with rfl | hdt
    · exact List.find?_cons_of_pos _ (by simp)
    · have hne : key a ≠ key d := by
        intro he
        exact hnd.1 (he ▸ List.mem_map_of_mem key hdt)
      rw [List.find?_cons_of_neg _ (by simp [hne])]
      exact ih hnd.2 hdt

/-- An empty cart short-circuits `create_order`. -/
theorem create_order_empty (db : DB) (od : OrderCreate) (now : Int) (today : OrderDate)
    (suffix : Nat) (hempty : od.items.isEmpty = true) :
    create_order db od now today suffix = (db, Except.error (400, "Cart is empty")) := by
  unfold create_order
  rw [hempty]
  rfl

/-- A failing validation loop short-circuits `create_order` before any write. -/
theorem create_order_invalid (db : DB) (od : OrderCreate) (now : Int) (today : OrderDate)
    (suffix : Nat) (e : Nat × String) (hne : od.items.isEmpty = false)
    (hval : validateItems db od.items = Except.error e) :
    create_order db od now today suffix = (db, Except.error e) := by
  unfold create_order
  rw [hne, hval]
  rfl

/-- On successful validation, `create_order` runs the success path. -/
theorem create_order_valid (db : DB) (od : OrderCreate) (now : Int) (today : OrderDate)
    (suffix : Nat) (ois : List OrderItem) (hne : od.items.isEmpty = false)
    (hval : validateItems db od.items = Except.ok ois) :
    create_order db od now today suffix = checkoutFinish db od now today suffix ois := by
  unfold create_order
  rw [hne, hval]
  rfl

/-- A request line the validation loop rejects: its product does not
exist, is unpublished, or has less stock than the requested quantity. -/
def invalidCartLine (db : DB) (it : CartItem) : Bool :=
  match findProduct db it.product_id with
  | none => true
  | some p => !p.is_published || decide (p.stock_quantity < (it.quantity : Int))

/-- Every error raised by the validation loop is a 400. -/
theorem lineResult_error_code (db : DB) (it : CartItem) (e : Nat × String)
    (h : lineResult db it = Except.error e) : e.1 = 400 := by
  unfold lineResult at h
  cases hp : findProduct db it.product_id with
  | none => rw [hp] at h; cases h; rfl
  | some p =>
    rw [hp] at h
    by_cases h1 : p.is_published = true
    · by_cases h2 : p.stock_quantity < (it.quantity : Int)
      · simp [h1, h2] at h; rw [← h]
      · simp [h1, h2] at h
    · have h1f : p.is_published = false := Bool.eq_false_iff.mpr h1
      simp [h1f] at h
      subst h
      rfl

/-- An invalid line makes the loop raise (a 400). -/
theorem lineResult_error_of_invalid (db : DB) (it : CartItem)
    (hbad : invalidCartLine db it = true) :
    ∃ msg, lineResult db it = Except.error (400, msg) := by
  unfold invalidCartLine at hbad
  unfold lineResult
  cases hp : findProduct db it.product_id with
  | none => exact ⟨"Product not found", rfl⟩
  | some p =>
    rw [hp] at hbad
    by_cases h1 : p.is_published = true
    · have h2 : p.stock_quantity < (it.quantity : Int) := by
        simp [h1] at hbad; exact hbad
      exact ⟨"Insufficient stock", by simp [h1, h2]⟩
    · have h1f : p.is_published = false := Bool.eq_false_iff.mpr h1
      exact ⟨"Product is not available", by simp [h1f]⟩

/-- A valid line makes the loop produce the row it builds. -/
theorem lineResult_ok_of_valid (db : DB) (it : CartItem) (p : Product)
    (hp : findProduct db it.product_id = some p) (hpub : p.is_published = true)
    (hstock : ¬ p.stock_quantity < (it.quantity : Int)) :
    lineResult db it = Except.ok
      { order_id := 0
        product_id := it.product_id
        variant_id := it.variant_id
        product_name := p.name_vi
        variant_name := variantNameLookup db it.variant_id
        quantity := it.quantity
        unit_price := effectiveBasePrice p + variantAdjustment db it.variant_id
        total_price := (effectiveBasePrice p + variantAdjustment db it.variant_id) * it.quantity } := by
  unfold lineResult
  rw [hp]
  simp [hpub, hstock]

/-- Shape of a successfully validated row. -/
theorem lineResult_ok_shape (db : DB) (it : CartItem) (oi : OrderItem)
    (h : lineResult db it = Except.ok oi) :
    ∃ p, findProduct db it.product_id = some p ∧ p.is_published = true ∧
      ¬ p.stock_quantity < (it.quantity : Int) ∧
      oi = { order_id := 0
             product_id := it.product_id
             variant_id := it.variant_id
             product_name := p.name_vi
             variant_name := variantNameLookup db it.variant_id
             quantity := it.quantity
             unit_price := effectiveBasePrice p + variantAdjustment db it.variant_id
             total_price := (effectiveBasePrice p + variantAdjustment db it.variant_id) * it.quantity } := by
  unfold lineResult at h
  cases hp : findProduct db it.product_id with
  | none => rw [hp] at h; cases h
  | some p =>
    rw [hp] at h
    by_cases h1 : p.is_published = true
    · by_cases h2 : p.stock_quantity < (it.quantity : Int)
      · simp [h1, h2] at h
      · refine ⟨p, rfl, h1, h2, ?_⟩
        simp [h1, h2] at h
        exact h.symm
    · have h1f : p.is_published = false := Bool.eq_false_iff.mpr h1
      simp [h1f] at h

/-- Any line failing validation aborts the whole cart with a 400. -/
theorem validateItems_error_of_invalid (db : DB) :
    ∀ items : List CartItem, (∃ it ∈ items, invalidCartLine db it = true) →
      ∃ msg, validateItems db items = Except.error (400, msg) := by
  intro items
  induction items with
  | nil => rintro ⟨it, hit, _⟩; cases hit
  | cons it rest ih =>
    rintro ⟨x, hx, hbad⟩
    unfold validateItems
    cases hl : lineResult db it with
    | error e =>
      have h400 := lineResult_error_code db it e hl
      exact ⟨e.2, by rw [← h400]⟩
    | ok oi =>
      rcases List.mem_cons.mp hx with rfl | hxr
      · rcases lineResult_error_of_invalid db x hbad with ⟨msg, hmsg⟩
        rw [hmsg] at hl; cases hl
      · rcases ih ⟨x, hxr, hbad⟩ with ⟨msg, hrest⟩
        rw [hrest]
        exact ⟨msg, rfl⟩

/-- Every row produced by the validation loop comes from a request line. -/
theorem validateItems_mem (db : DB) :
    ∀ (items : List CartItem) (pis : List OrderItem),
      validateItems db items = Except.ok pis →
      ∀ x ∈ pis, ∃ it ∈ items, lineResult db it = Except.ok x := by
  intro items
  induction items with
  | nil =>
    intro pis h x hx
    cases h
    cases hx
  | cons it rest ih =>
    intro pis h x hx
    unfold validateItems at h
    cases hl : lineResult db it with
    | error e => rw [hl] at h; cases h
    | ok oi =>
      rw [hl] at h
      cases hr : validateItems db rest with
      | error e => rw [hr] at h; cases h
      | ok ois =>
        rw [hr] at h
        cases h
        rcases List.mem_cons.mp hx with rfl | hxr
        · exact ⟨it, List.mem_cons_self it rest, hl⟩
        · rcases ih ois hr x hxr with ⟨it2, hit2, hl2⟩
          exact ⟨it2, List.mem_cons_of_mem it hit2, hl2⟩

/-- The validated rows are in bijection with the request lines, in order. -/
theorem validateItems_length (db : DB) :
    ∀ (items : List CartItem) (pis : List OrderItem),
      validateItems db items = Except.ok pis → pis.length = items.length := by
  intro items
  induction items with
  | nil => intro pis h; cases h; rfl
  | cons it rest ih =>
    intro pis h
    unfold validateItems at h
    cases hl : lineResult db it with
    | error e => rw [hl] at h; cases h
    | ok oi =>
      rw [hl] at h
      cases hr : validateItems db rest with
      | error e => rw [hr] at h; cases h
      | ok ois =>
        rw [hr] at h
        cases h
        simp [ih ois hr]

/-- Characterization of the discount step once a row has been fetched. -/
theorem applyDiscount_found (codes : List DiscountCode) (c : String) (st : Nat) (now : Int)
    (d : DiscountCode) (hc : c.data.isEmpty = false)
    (hfind : findFirstDiscount codes c = some d) :
    applyDiscount codes (some c) st now =
      if discountApplies d st now then
        (discountAmount d st,
         codes.map (fun x => if x.id == d.id then { x with used_count := d.used_count + 1 } else x))
      else (0, codes) := by
  unfold applyDiscount
  dsimp only
  rw [hc]
  simp only [Bool.false_eq_true, if_false]
  rw [hfind]
  dsimp only
  unfold discountApplies
  by_cases h1 : notStartedB d now <;> by_cases h2 : expiredB d now <;>
    by_cases h3 : exhaustedB d <;> by_cases h4 : belowMinB d st <;>
    simp [h1, h2, h3, h4]

/-- The discount step leaves the table untouched when no row is applied. -/
theorem applyDiscount_not_found (codes : List DiscountCode) (c : String) (st : Nat) (now : Int)
    (hc : c.data.isEmpty = false) (hfind : findFirstDiscount codes c = none) :
    applyDiscount codes (some c) st now = (0, codes) := by
  unfold applyDiscount
  dsimp only
  rw [hc]
  simp only [Bool.false_eq_true, if_false]
  rw [hfind]

/-- The stock decrement loop, observed through a lookup by product id:
the final stock of a product is its initial stock minus the sum of the
requested quantities of every cart line naming it. -/
theorem decrementStockList_find? (items : List CartItem) :
    ∀ (ps : List Product) (pid : Nat),
      (decrementStockList ps items).find? (fun p => p.id == pid) =
        (ps.find? (fun p => p.id == pid)).map (fun p =>
          { p with stock_quantity := p.stock_quantity -
              (((items.filter (fun it => it.product_id == pid)).map
                  (fun it => (it.quantity : Int))).sum) }) := by
  induction items with
  | nil =>
    intro ps pid
    simp only [decrementStockList, List.filter_nil, List.map_nil, List.sum_nil]
    cases h : ps.find? (fun p => p.id == pid) with
    | none => rfl
    | some p => simp
  | cons it rest ih =>
    intro ps pid
    unfold decrementStockList
    cases hf : ps.find? (fun p => p.id == it.product_id) with
    | none =>
      rw [ih ps pid]
      by_cases hpid : it.product_id = pid
      · subst hpid
        rw [hf]
        rfl
      · rw [List.filter_cons]
        simp [show (it.product_id == pid) = false by simp [hpid]]
    | some p =>
      rw [ih _ pid]
      rw [find?_map_keyed (fun q => q.id) it.product_id pid
            (fun q => { q with stock_quantity := p.stock_quantity - (it.quantity : Int) })
            (fun q => rfl) ps]
      by_cases hpid : it.product_id = pid
      · subst hpid
        have hpp := List.find?_some hf
        have hpe : p.id = it.product_id := by simpa using hpp
        rw [hf, List.filter_cons]
        simp [hpp, hpe, sub_sub]
      · have hne : (it.product_id == pid) = false := by simp [hpid]
        rw [List.filter_cons]
        cases hf2 : ps.find? (fun q => q.id == pid) with
        | none => simp [hne]
        | some q =>
          have hq := List.find?_some hf2
          have hqe : q.id = pid := by simpa using hq
          have hqpe : ¬ q.id = it.product_id := by
            rw [hqe]
            exact fun h => hpid h.symm
          have hqne : (q.id == it.product_id) = false := by simp [hqpe]
          simp [hne, hqne, hqpe]

/-- A successful `create_order` run decomposes into a non-empty cart, a
successful validation, and the success-path result. -/
theorem create_order_ok_shape (db : DB) (req : OrderCreate) (now : Int) (today : OrderDate)
    (suffix : Nat) (db' : DB) (order : Order) (items : List OrderItem)
    (hrun : create_order db req now today suffix = (db', Except.ok (order, items))) :
    ∃ ois, req.items.isEmpty = false ∧ validateItems db req.items = Except.ok ois ∧
      db' = checkoutDB db req now today suffix ois ∧
      order = checkoutOrderRow db req now today suffix ois ∧
      items = checkoutCreatedItems db ois := by
  by_cases hempty : req.items.isEmpty = true
  · rw [create_order_empty db req now today suffix hempty] at hrun
    simp at hrun
  · have hempty' : req.items.isEmpty = false := Bool.eq_false_iff.mpr hempty
    cases hval : validateItems db req.items with
    | error e =>
      rw [create_order_invalid db req now today suffix e hempty' hval] at hrun
      simp at hrun
    | ok ois =>
      rw [create_order_valid db req now today suffix ois hempty' hval] at hrun
      unfold checkoutFinish at hrun
      simp only [Prod.mk.injEq, Except.ok.injEq] at hrun
      exact ⟨ois, hempty', rfl, hrun.1.symm, hrun.2.1.symm, hrun.2.2.symm⟩

/-- A number below 10 prints with one digit. -/
theorem repr_length_one (n : Nat) (h : n < 10) : (Nat.repr n).length = 1 := by
  rw [repr_length_eq_numLen, numLen]
  simp [h]

/-- Zero-padding a number below 100 yields two characters. -/
theorem pad2_length (n : Nat) (h : n ≤ 99) : (pad2 n).length = 2 := by
  unfold pad2
  by_cases h10 : n < 10
  · rw [if_pos h10, String.length_append, repr_length_one n h10]
    decide
  · rw [if_neg h10, repr_length_eq_numLen]
    rw [numLen, if_neg h10, numLen, if_pos (by omega : n / 10 < 10)]

/-- Zero-padding produces digit characters only. -/
theorem pad2_all_digits (n : Nat) : (pad2 n).data.all Char.isDigit = true := by
  unfold pad2
  by_cases h10 : n < 10
  · rw [if_pos h10]
    rw [String.data_append, List.all_append]
    simp [repr_all_digits n]
  · rw [if_neg h10]
    exact repr_all_digits n

/-- C3: evaluation of `calculate_delivery_fee` at the inputs named by the
claim.  The bare key `"1"` receives the 25000 table fee, but the prefixed
forms `"Quận 1"` and `"quan 1"` receive the 35000 fallback: the code
replaces spaces with underscores before stripping the prefixes
`"quận "`/`"quan "`, which both contain a space, so the strip never
matches and the prefixed key misses the table. -/
theorem c3_district_fee_eval :
    calculate_delivery_fee "1" = 25000 ∧
    calculate_delivery_fee "Quận 1" = 35000 ∧
    calculate_delivery_fee "quan 1" = 35000 ∧
    calculate_delivery_fee "Tan Binh" = 35000 ∧
    calculate_delivery_fee "somewhere else" = 35000 := by
  decide

/-- C8: every order created by a successful checkout has order number
`"YF-" ++ YYYYMMDD ++ "-" ++ suffix`, where `YYYYMMDD` is the eight-digit
rendering of the creation date and the suffix prints with exactly three
digit characters for the values `randint(100, 999)` can draw. -/
theorem c8_order_number_format (db : DB) (req : OrderCreate) (now : Int) (today : OrderDate)
    (suffix : Nat) (db' : DB) (order : Order) (items : List OrderItem)
    (hy1 : 1000 ≤ today.year) (hy2 : today.year ≤ 9999)
    (hm : today.month ≤ 12) (hd : today.day ≤ 31)
    (hs1 : 100 ≤ suffix) (hs2 : suffix ≤ 999)
    (hrun : create_order db req now today suffix = (db', Except.ok (order, items))) :
    order.order_number = "YF-" ++ dateYYYYMMDD today ++ "-" ++ Nat.repr suffix ∧
    (dateYYYYMMDD today).length = 8 ∧
    (dateYYYYMMDD today).data.all Char.isDigit = true ∧
    (Nat.repr suffix).length = 3 ∧
    (Nat.repr suffix).data.all Char.isDigit = true := by
  obtain ⟨ois, hne, hval, hdb, horder, hitems⟩ :=
    create_order_ok_shape db req now today suffix db' order items hrun
  subst horder
  refine ⟨rfl, ?_, ?_, repr_length_three suffix hs1 hs2, repr_all_digits suffix⟩
  · unfold dateYYYYMMDD
    rw [String.length_append, String.length_append]
    rw [repr_length_four today.year hy1 hy2]
    rw [pad2_length today.month (by omega), pad2_length today.day (by omega)]
  · unfold dateYYYYMMDD
    rw [String.data_append, String.data_append, List.all_append, List.all_append]
    simp [repr_all_digits today.year, pad2_all_digits today.month, pad2_all_digits today.day]

/-- Product catalog of the C8 witness scenario. -/
def c8db : DB :=
  { products := [{ id := 1, name_vi := "Hoa hong do", is_published := true, price := 450000,
                   sale_price := none, stock_quantity := 50 }]
    product_variants := []
    discount_codes := []
    orders := []
    order_items := [] }

/-- Checkout request of the C8 witness scenario. -/
def c8req : OrderCreate :=
  { items := [{ product_id := 1, variant_id := none, quantity := 1 }]
    shipping_address := { full_name := "Nguyen Van A", phone := "0900000000",
                          address_line := "12 Le Loi", ward := none, district := "1",
                          city := "Ho Chi Minh" }
    payment_method := "cod"
    customer_note := none
    delivery_date := none
    delivery_time_slot := none
    discount_code := none }

/-- Validated rows of the C8 witness scenario. -/
def c8ois : List OrderItem :=
  [{ order_id := 0, product_id := 1, variant_id := none, product_name := "Hoa hong do",
     variant_name := none, quantity := 1, unit_price := 450000, total_price := 450000 }]

/-- Witness for C8 at the concrete date 2026-10-12 and suffix 457. -/
theorem c8_order_number_format_witness :
    (create_order c8db c8req 0 ⟨2026, 10, 12⟩ 457 =
      (checkoutDB c8db c8req 0 ⟨2026, 10, 12⟩ 457 c8ois,
       Except.ok (checkoutOrderRow c8db c8req 0 ⟨2026, 10, 12⟩ 457 c8ois,
                  checkoutCreatedItems c8db c8ois))) ∧
    ((checkoutOrderRow c8db c8req 0 ⟨2026, 10, 12⟩ 457 c8ois).order_number =
        "YF-" ++ dateYYYYMMDD ⟨2026, 10, 12⟩ ++ "-" ++ Nat.repr 457 ∧
      (dateYYYYMMDD ⟨2026, 10, 12⟩).length = 8 ∧
      (dateYYYYMMDD ⟨2026, 10, 12⟩).data.all Char.isDigit = true ∧
      (Nat.repr 457).length = 3 ∧
      (Nat.repr 457).data.all Char.isDigit = true) := by
  have hrun : create_order c8db c8req 0 ⟨2026, 10, 12⟩ 457 =
      (checkoutDB c8db c8req 0 ⟨2026, 10, 12⟩ 457 c8ois,
       Except.ok (checkoutOrderRow c8db c8req 0 ⟨2026, 10, 12⟩ 457 c8ois,
                  checkoutCreatedItems c8db c8ois)) := by decide
  exact ⟨hrun,
    c8_order_number_format c8db c8req 0 ⟨2026, 10, 12⟩ 457 _ _ _
      (by decide) (by decide) (by decide) (by decide) (by decide) (by decide) hrun⟩

/-- C1 (amended): for every successful checkout, each persisted item is
priced from the catalog row of its line: `unit_price` is the product
sale price when set and nonzero, otherwise the regular price, plus the
variant adjustment, and `total_price = unit_price * quantity`; the
persisted order carries `subtotal = Σ total_price` over its items and
`total = subtotal + shipping_fee - discount_amount`. -/
theorem c1_item_pricing_and_totals (db : DB) (req : OrderCreate) (now : Int)
    (today : OrderDate) (suffix : Nat) (db' : DB) (order : Order) (items : List OrderItem)
    (hrun : create_order db req now today suffix = (db', Except.ok (order, items))) :
    (∀ oi ∈ items, ∃ p, findProduct db oi.product_id = some p ∧
        oi.unit_price = effectiveBasePrice p + variantAdjustment db oi.variant_id ∧
        oi.total_price = oi.unit_price * oi.quantity) ∧
    order.subtotal = (items.map (fun oi => oi.total_price)).sum ∧
    order.total = (order.subtotal : Int) + (order.shipping_fee : Int) -
      (order.discount_amount : Int) ∧
    order ∈ db'.orders := by
  obtain ⟨ois, hne, hval, hdb, horder, hitems⟩ :=
    create_order_ok_shape db req now today suffix db' order items hrun
  subst hdb horder hitems
  refine ⟨?_, ?_, rfl, ?_⟩
  · intro oi hoi
    unfold checkoutCreatedItems at hoi
    rcases List.mem_map.mp hoi with ⟨x, hx, rfl⟩
    rcases validateItems_mem db req.items ois hval x hx with ⟨it, hit, hlr⟩
    rcases lineResult_ok_shape db it x hlr with ⟨p, hp, hpub, hstock, rfl⟩
    exact ⟨p, hp, rfl, rfl⟩
  · show checkoutSubtotal ois = _
    unfold checkoutSubtotal checkoutCreatedItems
    rw [List.map_map]
    rfl
  · simp [checkoutDB]

/-- Catalog of the C1 counterexample: a published product with
`sale_price` present but equal to `0`. -/
def c1db : DB :=
  { products := [{ id := 1, name_vi := "Hoa khuyen mai", is_published := true, price := 100000,
                   sale_price := some 0, stock_quantity := 10 }]
    product_variants := []
    discount_codes := []
    orders := []
    order_items := [] }

/-- One-line cart for the C1 counterexample. -/
def c1req : OrderCreate :=
  { items := [{ product_id := 1, variant_id := none, quantity := 1 }]
    shipping_address := { full_name := "Nguyen Van B", phone := "0900000001",
                          address_line := "34 Hai Ba Trung", ward := none, district := "1",
                          city := "Ho Chi Minh" }
    payment_method := "cod"
    customer_note := none
    delivery_date := none
    delivery_time_slot := none
    discount_code := none }

/-- Counterexample to C1 as stated: the product of the single cart line
has `sale_price` set (to `0`), the claim therefore prices the item at
`sale_price + adjustment = 0`, but the checkout succeeds and persists
`unit_price = 100000` (the regular price: Python `or` treats the set
value `0` as unset). -/
theorem c1_counterexample :
    (findProduct c1db 1).map (fun p => (p.sale_price, p.price)) = some (some 0, 100000) ∧
    (create_order c1db c1req 0 ⟨2026, 1, 15⟩ 321).2.map
        (fun r => r.2.map (fun oi => oi.unit_price)) = Except.ok [100000] ∧
    (100000 : Nat) ≠ 0 + variantAdjustment c1db none := by
  decide

/-- Catalog of the C1 witness: a sale-priced product and a variant with a
price adjustment. -/
def c1wdb : DB :=
  { products := [{ id := 1, name_vi := "Hoa hong do", is_published := true, price := 500000,
                   sale_price := some 400000, stock_quantity := 20 }]
    product_variants := [{ id := 7, product_id := 1, name_vi := "Bo lon", price_adjustment := 50000 }]
    discount_codes := []
    orders := []
    order_items := [] }

/-- Two units of the variant-priced product. -/
def c1wreq : OrderCreate :=
  { items := [{ product_id := 1, variant_id := some 7, quantity := 2 }]
    shipping_address := { full_name := "Nguyen Van C", phone := "0900000002",
                          address_line := "56 Dong Khoi", ward := none, district := "3",
                          city := "Ho Chi Minh" }
    payment_method := "cod"
    customer_note := none
    delivery_date := none
    delivery_time_slot := none
    discount_code := none }

/-- Validated rows of the C1 witness: unit price 450000 = 400000 + 50000. -/
def c1wois : List OrderItem :=
  [{ order_id := 0, product_id := 1, variant_id := some 7, product_name := "Hoa hong do",
     variant_name := some "Bo lon", quantity := 2, unit_price := 450000,
     total_price := 900000 }]

/-- Witness for C1 on a concrete successful checkout. -/
theorem c1_item_pricing_and_totals_witness :
    (create_order c1wdb c1wreq 0 ⟨2026, 1, 15⟩ 321 =
      (checkoutDB c1wdb c1wreq 0 ⟨2026, 1, 15⟩ 321 c1wois,
       Except.ok (checkoutOrderRow c1wdb c1wreq 0 ⟨2026, 1, 15⟩ 321 c1wois,
                  checkoutCreatedItems c1wdb c1wois))) ∧
    ((∀ oi ∈ checkoutCreatedItems c1wdb c1wois, ∃ p, findProduct c1wdb oi.product_id = some p ∧
        oi.unit_price = effectiveBasePrice p + variantAdjustment c1wdb oi.variant_id ∧
        oi.total_price = oi.unit_price * oi.quantity) ∧
      (checkoutOrderRow c1wdb c1wreq 0 ⟨2026, 1, 15⟩ 321 c1wois).subtotal =
        ((checkoutCreatedItems c1wdb c1wois).map (fun oi => oi.total_price)).sum ∧
      (checkoutOrderRow c1wdb c1wreq 0 ⟨2026, 1, 15⟩ 321 c1wois).total =
        ((checkoutOrderRow c1wdb c1wreq 0 ⟨2026, 1, 15⟩ 321 c1wois).subtotal : Int) +
        ((checkoutOrderRow c1wdb c1wreq 0 ⟨2026, 1, 15⟩ 321 c1wois).shipping_fee : Int) -
        ((checkoutOrderRow c1wdb c1wreq 0 ⟨2026, 1, 15⟩ 321 c1wois).discount_amount : Int) ∧
      checkoutOrderRow c1wdb c1wreq 0 ⟨2026, 1, 15⟩ 321 c1wois ∈
        (checkoutDB c1wdb c1wreq 0 ⟨2026, 1, 15⟩ 321 c1wois).orders) := by
  have hrun : create_order c1wdb c1wreq 0 ⟨2026, 1, 15⟩ 321 =
      (checkoutDB c1wdb c1wreq 0 ⟨2026, 1, 15⟩ 321 c1wois,
       Except.ok (checkoutOrderRow c1wdb c1wreq 0 ⟨2026, 1, 15⟩ 321 c1wois,
                  checkoutCreatedItems c1wdb c1wois)) := by decide
  exact ⟨hrun, c1_item_pricing_and_totals c1wdb c1wreq 0 ⟨2026, 1, 15⟩ 321 _ _ _ hrun⟩

/-- C2: a checkout whose cart is empty, or contains any line naming a
missing or unpublished product or requesting more than the available
stock, answers a 400 error and leaves the database exactly as it was:
no order or item row is inserted, no stock is decremented, and no
discount use is consumed. -/
theorem c2_invalid_cart_no_write (db : DB) (req : OrderCreate) (now : Int)
    (today : OrderDate) (suffix : Nat)
    (hbad : req.items = [] ∨ ∃ it ∈ req.items, invalidCartLine db it = true) :
    (create_order db req now today suffix).1 = db ∧
    ∃ msg, (create_order db req now today suffix).2 = Except.error (400, msg) := by
  rcases hbad with hempty | ⟨it, hit, hbadline⟩
  · have he : req.items.isEmpty = true := by simp [hempty]
    rw [create_order_empty db req now today suffix he]
    exact ⟨rfl, "Cart is empty", rfl⟩
  · have hne : req.items.isEmpty = false := by
      cases hitems : req.items with
      | nil => rw [hitems] at hit; cases hit
      | cons a t => simp
    rcases validateItems_error_of_invalid db req.items ⟨it, hit, hbadline⟩ with ⟨msg, hval⟩
    rw [create_order_invalid db req now today suffix (400, msg) hne hval]
    exact ⟨rfl, msg, rfl⟩

/-- Catalog of the C2 witness: a published product with stock 2. -/
def c2db : DB :=
  { products := [{ id := 1, name_vi := "Hoa lan", is_published := true, price := 450000,
                   sale_price := none, stock_quantity := 2 }]
    product_variants := []
    discount_codes := []
    orders := []
    order_items := [] }

/-- A cart requesting 10 units of the product with stock 2. -/
def c2req : OrderCreate :=
  { items := [{ product_id := 1, variant_id := none, quantity := 10 }]
    shipping_address := { full_name := "Nguyen Van D", phone := "0900000003",
                          address_line := "78 Nguyen Hue", ward := none, district := "1",
                          city := "Ho Chi Minh" }
    payment_method := "cod"
    customer_note := none
    delivery_date := none
    delivery_time_slot := none
    discount_code := none }

/-- Witness for C2: requesting quantity 10 against stock 2 leaves the
database untouched and returns a 400. -/
theorem c2_invalid_cart_no_write_witness :
    (∃ it ∈ c2req.items, invalidCartLine c2db it = true) ∧
    ((create_order c2db c2req 0 ⟨2026, 1, 15⟩ 500).1 = c2db ∧
      ∃ msg, (create_order c2db c2req 0 ⟨2026, 1, 15⟩ 500).2 = Except.error (400, msg)) := by
  have hbad : ∃ it ∈ c2req.items, invalidCartLine c2db it = true := by decide
  exact ⟨hbad, c2_invalid_cart_no_write c2db c2req 0 ⟨2026, 1, 15⟩ 500 (Or.inr hbad)⟩

/-- C9: after a successful checkout every product's stock equals its
pre-checkout stock minus the sum of the requested quantities over all
cart lines naming it, with no lower bound (the stock field is an
integer; validation compared each line against the pre-checkout stock,
so repeated lines can drive the final value negative). -/
theorem c9_stock_decrement (db : DB) (req : OrderCreate) (now : Int) (today : OrderDate)
    (suffix : Nat) (db' : DB) (order : Order) (items : List OrderItem)
    (hrun : create_order db req now today suffix = (db', Except.ok (order, items)))
    (pid : Nat) :
    findProduct db' pid = (findProduct db pid).map (fun p =>
      { p with stock_quantity := p.stock_quantity -
          (((req.items.filter (fun it => it.product_id == pid)).map
              (fun it => (it.quantity : Int))).sum) }) := by
  obtain ⟨ois, hne, hval, hdb, horder, hitems⟩ :=
    create_order_ok_shape db req now today suffix db' order items hrun
  subst hdb
  show (checkoutDB db req now today suffix ois).products.find? (fun p => p.id == pid) = _
  unfold checkoutDB
  exact decrementStockList_find? req.items db.products pid

/-- Catalog of the C9 witness: one product with stock 3. -/
def c9db : DB :=
  { products := [{ id := 1, name_vi := "Hoa cuc", is_published := true, price := 200000,
                   sale_price := none, stock_quantity := 3 }]
    product_variants := []
    discount_codes := []
    orders := []
    order_items := [] }

/-- A cart naming the same product on two lines, 2 units each: each line
passes validation against the pre-checkout stock 3. -/
def c9req : OrderCreate :=
  { items := [{ product_id := 1, variant_id := none, quantity := 2 },
              { product_id := 1, variant_id := none, quantity := 2 }]
    shipping_address := { full_name := "Nguyen Van E", phone := "0900000004",
                          address_line := "90 Pasteur", ward := none, district := "5",
                          city := "Ho Chi Minh" }
    payment_method := "cod"
    customer_note := none
    delivery_date := none
    delivery_time_slot := none
    discount_code := none }

/-- Validated rows of the C9 witness. -/
def c9ois : List OrderItem :=
  [{ order_id := 0, product_id := 1, variant_id := none, product_name := "Hoa cuc",
     variant_name := none, quantity := 2, unit_price := 200000, total_price := 400000 },
   { order_id := 0, product_id := 1, variant_id := none, product_name := "Hoa cuc",
     variant_name := none, quantity := 2, unit_price := 200000, total_price := 400000 }]

/-- Witness for C9: the double-line cart passes validation and leaves the
stock at 3 - 4 = -1. -/
theorem c9_stock_decrement_witness :
    (create_order c9db c9req 0 ⟨2026, 2, 1⟩ 400 =
      (checkoutDB c9db c9req 0 ⟨2026, 2, 1⟩ 400 c9ois,
       Except.ok (checkoutOrderRow c9db c9req 0 ⟨2026, 2, 1⟩ 400 c9ois,
                  checkoutCreatedItems c9db c9ois))) ∧
    findProduct (checkoutDB c9db c9req 0 ⟨2026, 2, 1⟩ 400 c9ois) 1 =
      (findProduct c9db 1).map (fun p =>
        { p with stock_quantity := p.stock_quantity -
            (((c9req.items.filter (fun it => it.product_id == 1)).map
                (fun it => (it.quantity : Int))).sum) }) ∧
    (findProduct (checkoutDB c9db c9req 0 ⟨2026, 2, 1⟩ 400 c9ois) 1).map
        (fun p => p.stock_quantity) = some (-1) := by
  have hrun : create_order c9db c9req 0 ⟨2026, 2, 1⟩ 400 =
      (checkoutDB c9db c9req 0 ⟨2026, 2, 1⟩ 400 c9ois,
       Except.ok (checkoutOrderRow c9db c9req 0 ⟨2026, 2, 1⟩ 400 c9ois,
                  checkoutCreatedItems c9db c9ois)) := by decide
  exact ⟨hrun,
    c9_stock_decrement c9db c9req 0 ⟨2026, 2, 1⟩ 400 _ _ _ hrun 1,
    by decide⟩

/-- C10: a cart line whose `variant_id` matches no variant row does not
make checkout fail: its validation succeeds (for a product passing the
product checks) and the row is priced with adjustment 0 and recorded
with a null `variant_name`; accordingly, every item a successful
checkout persists for such a variant id carries `variant_name = none`
and the bare product price. -/
theorem c10_missing_variant (db : DB) (it : CartItem) (vid : Nat) (p : Product)
    (hvid : it.variant_id = some vid) (hnovar : findVariant db vid = none)
    (hp : findProduct db it.product_id = some p) (hpub : p.is_published = true)
    (hstock : ¬ p.stock_quantity < (it.quantity : Int)) :
    lineResult db it = Except.ok
      { order_id := 0, product_id := it.product_id, variant_id := some vid,
        product_name := p.name_vi, variant_name := none, quantity := it.quantity,
        unit_price := effectiveBasePrice p,
        total_price := effectiveBasePrice p * it.quantity } ∧
    ∀ (req : OrderCreate) (now : Int) (today : OrderDate) (suffix : Nat)
      (db' : DB) (order : Order) (items : List OrderItem),
      create_order db req now today suffix = (db', Except.ok (order, items)) →
      ∀ oi ∈ items, oi.variant_id = some vid →
        oi.variant_name = none ∧
        ∃ q, findProduct db oi.product_id = some q ∧ oi.unit_price = effectiveBasePrice q := by
  have hnm : variantNameLookup db (some vid) = none := by
    unfold variantNameLookup
    dsimp only
    rw [hnovar]
  have hadj : variantAdjustment db (some vid) = 0 := by
    unfold variantAdjustment
    dsimp only
    rw [hnovar]
  constructor
  · rw [lineResult_ok_of_valid db it p hp hpub hstock, hvid, hnm, hadj]
    simp
  · intro req now today suffix db' order items hrun oi hoi hvv
    obtain ⟨ois, hne, hval, hdb, horder, hitems⟩ :=
      create_order_ok_shape db req now today suffix db' order items hrun
    subst hitems
    unfold checkoutCreatedItems at hoi
    rcases List.mem_map.mp hoi with ⟨x, hx, rfl⟩
    rcases validateItems_mem db req.items ois hval x hx with ⟨it2, hit2, hlr⟩
    rcases lineResult_ok_shape db it2 x hlr with ⟨q, hq, hqpub, hqstock, rfl⟩
    have hvv2 : it2.variant_id = some vid := hvv
    refine ⟨?_, q, hq, ?_⟩
    · show variantNameLookup db it2.variant_id = none
      rw [hvv2, hnm]
    · show effectiveBasePrice q + variantAdjustment db it2.variant_id = effectiveBasePrice q
      rw [hvv2, hadj]
      exact Nat.add_zero _

/-- Catalog of the C10 witness: a product and no variant rows at all. -/
def c10db : DB :=
  { products := [{ id := 1, name_vi := "Hoa ly", is_published := true, price := 300000,
                   sale_price := none, stock_quantity := 10 }]
    product_variants := []
    discount_codes := []
    orders := []
    order_items := [] }

/-- The C10 witness product row. -/
def c10prod : Product :=
  { id := 1, name_vi := "Hoa ly", is_published := true, price := 300000,
    sale_price := none, stock_quantity := 10 }

/-- A cart line naming the nonexistent variant 9. -/
def c10it : CartItem := { product_id := 1, variant_id := some 9, quantity := 1 }

/-- Witness for C10: the line with the unknown variant id validates
successfully, priced without adjustment and with a null variant name. -/
theorem c10_missing_variant_witness :
    (c10it.variant_id = some 9 ∧ findVariant c10db 9 = none ∧
      findProduct c10db 1 = some c10prod ∧ c10prod.is_published = true ∧
      ¬ c10prod.stock_quantity < (c10it.quantity : Int)) ∧
    lineResult c10db c10it = Except.ok
      { order_id := 0, product_id := c10it.product_id, variant_id := some 9,
        product_name := c10prod.name_vi, variant_name := none, quantity := c10it.quantity,
        unit_price := effectiveBasePrice c10prod,
        total_price := effectiveBasePrice c10prod * c10it.quantity } := by
  refine ⟨⟨rfl, by decide, by decide, rfl, by decide⟩, ?_⟩
  exact (c10_missing_variant c10db c10it 9 c10prod rfl (by decide) (by decide) rfl
    (by decide)).1

/-- The `discount_codes` table after a checkout run: either untouched, or
the result of the discount step on the validated subtotal. -/
theorem create_order_discount_codes (db : DB) (req : OrderCreate) (now : Int)
    (today : OrderDate) (suffix : Nat) :
    (create_order db req now today suffix).1.discount_codes = db.discount_codes ∨
    (∃ ois, validateItems db req.items = Except.ok ois ∧ req.items.isEmpty = false ∧
      (create_order db req now today suffix).1.discount_codes =
        (applyDiscount db.discount_codes req.discount_code (checkoutSubtotal ois) now).2) := by
  by_cases hempty : req.items.isEmpty = true
  · left
    rw [create_order_empty db req now today suffix hempty]
  · have hne : req.items.isEmpty = false := Bool.eq_false_iff.mpr hempty
    cases hval : validateItems db req.items with
    | error e =>
      left
      rw [create_order_invalid db req now today suffix e hne hval]
    | ok ois =>
      right
      refine ⟨ois, rfl, hne, ?_⟩
      rw [create_order_valid db req now today suffix ois hne hval]
      rfl

/-- C4 (amended): for a checkout carrying a code that resolves to a row
`d`: every successful application stores exactly `used_count + 1`; and
when `max_uses` is set and nonzero (Python treats a missing or zero
`max_uses` as no limit), an exhausted row (`used_count ≥ max_uses`)
leaves the table untouched and `used_count ≤ max_uses` is preserved by
the run. -/
theorem c4_discount_usage (db : DB) (req : OrderCreate) (now : Int) (today : OrderDate)
    (suffix : Nat) (c : String) (d : DiscountCode)
    (hcode : req.discount_code = some c) (hcne : c.data.isEmpty = false)
    (hfind : findFirstDiscount db.discount_codes c = some d)
    (hnd : (db.discount_codes.map (fun x => x.id)).Nodup) :
    (∀ ois, validateItems db req.items = Except.ok ois → req.items.isEmpty = false →
      discountApplies d (checkoutSubtotal ois) now = true →
      findDiscountById (create_order db req now today suffix).1.discount_codes d.id =
        some { d with used_count := d.used_count + 1 }) ∧
    (∀ m, d.max_uses = some m → 0 < m → m ≤ d.used_count →
      (create_order db req now today suffix).1.discount_codes = db.discount_codes) ∧
    (∀ m, d.max_uses = some m → 0 < m → d.used_count ≤ m →
      ∀ d2, findDiscountById (create_order db req now today suffix).1.discount_codes d.id =
          some d2 → d2.used_count ≤ m) := by
  have hmem : d ∈ db.discount_codes := List.mem_of_find?_eq_some hfind
  have hfid : db.discount_codes.find? (fun x => x.id == d.id) = some d :=
    find?_key_of_nodup (fun x => x.id) db.discount_codes hnd hmem
  have hupd : ∀ st : Nat,
      findDiscountById
        (db.discount_codes.map
          (fun x => if x.id == d.id then { x with used_count := d.used_count + 1 } else x)) d.id =
        some { d with used_count := d.used_count + 1 } := by
    intro st
    unfold findDiscountById
    rw [find?_map_keyed (fun x => x.id) d.id d.id
          (fun x => { x with used_count := d.used_count + 1 }) (fun x => rfl)
          db.discount_codes]
    rw [hfid]
    simp
  refine ⟨?_, ?_, ?_⟩
  · intro ois hval hne happ
    rw [create_order_valid db req now today suffix ois hne hval]
    show findDiscountById
        (applyDiscount db.discount_codes req.discount_code (checkoutSubtotal ois) now).2 d.id = _
    rw [hcode, applyDiscount_found db.discount_codes c (checkoutSubtotal ois) now d hcne hfind]
    rw [if_pos happ]
    exact hupd (checkoutSubtotal ois)
  · intro m hm hmpos hexh
    have hexhB : exhaustedB d = true := by
      unfold exhaustedB
      rw [hm]
      simp [hexh]
      omega
    rcases create_order_discount_codes db req now today suffix with h | ⟨ois, hval, hne, h⟩
    · exact h
    · rw [h, hcode, applyDiscount_found db.discount_codes c (checkoutSubtotal ois) now d hcne hfind]
      have happF : discountApplies d (checkoutSubtotal ois) now = false := by
        unfold discountApplies
        simp [hexhB]
      rw [happF]
      simp
  · intro m hm hmpos hle d2 hd2
    rcases create_order_discount_codes db req now today suffix with h | ⟨ois, hval, hne, h⟩
    · rw [h] at hd2
      unfold findDiscountById at hd2
      rw [hfid] at hd2
      cases hd2
      exact hle
    · rw [h, hcode, applyDiscount_found db.discount_codes c (checkoutSubtotal ois) now d hcne hfind] at hd2
      by_cases happ : discountApplies d (checkoutSubtotal ois) now = true
      · rw [if_pos happ] at hd2
        rw [hupd (checkoutSubtotal ois)] at hd2
        cases hd2
        have hnotexh : exhaustedB d = false := by
          cases hb : exhaustedB d with
          | false => rfl
          | true =>
            unfold discountApplies at happ
            rw [hb] at happ
            simp at happ
        have : ¬ m ≤ d.used_count := by
          unfold exhaustedB at hnotexh
          rw [hm] at hnotexh
          simp at hnotexh
          intro hcon
          omega
        show d.used_count + 1 ≤ m
        omega
      · rw [if_neg happ] at hd2
        unfold findDiscountById at hd2
        rw [hfid] at hd2
        cases hd2
        exact hle

/-- Catalog of the C4 counterexample: an active percentage code whose
`max_uses` is present and equal to `0`, with `used_count = 0`. -/
def c4xdb : DB :=
  { products := [{ id := 1, name_vi := "Hoa hong trang", is_published := true, price := 450000,
                   sale_price := none, stock_quantity := 30 }]
    product_variants := []
    discount_codes := [{ id := 5, code := "SALE10", is_active := true,
                         discount_type := "percentage", discount_value := 10,
                         min_order_value := none, max_uses := some 0, used_count := 0,
                         starts_at := none, expires_at := none }]
    orders := []
    order_items := [] }

/-- Checkout of one product carrying the code of the C4 counterexample. -/
def c4xreq : OrderCreate :=
  { items := [{ product_id := 1, variant_id := none, quantity := 1 }]
    shipping_address := { full_name := "Nguyen Van F", phone := "0900000005",
                          address_line := "11 Ly Tu Trong", ward := none, district := "1",
                          city := "Ho Chi Minh" }
    payment_method := "cod"
    customer_note := none
    delivery_date := none
    delivery_time_slot := none
    discount_code := some "SALE10" }

/-- Counterexample to C4 as stated: the code has `used_count = 0 ≥
max_uses = 0`, so the claim calls it exhausted and forbids applying or
incrementing it; the checkout nonetheless applies it (Python treats the
set value `0` of `max_uses` as falsy, skipping the exhaustion guard) and
stores `used_count = 1 > max_uses`. -/
theorem c4_counterexample :
    (findDiscountById c4xdb.discount_codes 5).map (fun d => (d.used_count, d.max_uses)) =
      some (0, some 0) ∧
    (findDiscountById (create_order c4xdb c4xreq 0 ⟨2026, 3, 1⟩ 600).1.discount_codes 5).map
      (fun d => d.used_count) = some 1 ∧
    (create_order c4xdb c4xreq 0 ⟨2026, 3, 1⟩ 600).2.map (fun r => r.1.discount_amount) =
      Except.ok 45000 := by
  decide

/-- Catalog of the C4 witness: an active percentage code with
`max_uses = 100` and `used_count = 5`. -/
def c4wdb : DB :=
  { products := [{ id := 1, name_vi := "Hoa hong vang", is_published := true, price := 450000,
                   sale_price := none, stock_quantity := 30 }]
    product_variants := []
    discount_codes := [{ id := 5, code := "SALE10", is_active := true,
                         discount_type := "percentage", discount_value := 10,
                         min_order_value := none, max_uses := some 100, used_count := 5,
                         starts_at := none, expires_at := none }]
    orders := []
    order_items := [] }

/-- The discount row of the C4 witness. -/
def c4wd : DiscountCode :=
  { id := 5, code := "SALE10", is_active := true, discount_type := "percentage",
    discount_value := 10, min_order_value := none, max_uses := some 100, used_count := 5,
    starts_at := none, expires_at := none }

/-- Checkout request of the C4 witness. -/
def c4wreq : OrderCreate :=
  { items := [{ product_id := 1, variant_id := none, quantity := 1 }]
    shipping_address := { full_name := "Nguyen Van G", phone := "0900000006",
                          address_line := "22 Le Thanh Ton", ward := none, district := "1",
                          city := "Ho Chi Minh" }
    payment_method := "cod"
    customer_note := none
    delivery_date := none
    delivery_time_slot := none
    discount_code := some "SALE10" }

/-- Witness for C4: on the concrete valid code the run stores
`used_count = 6 ≤ max_uses = 100`. -/
theorem c4_discount_usage_witness :
    (c4wreq.discount_code = some "SALE10" ∧ ("SALE10" : String).data.isEmpty = false ∧
      findFirstDiscount c4wdb.discount_codes "SALE10" = some c4wd ∧
      (c4wdb.discount_codes.map (fun x => x.id)).Nodup) ∧
    ((∀ ois, validateItems c4wdb c4wreq.items = Except.ok ois →
        c4wreq.items.isEmpty = false →
        discountApplies c4wd (checkoutSubtotal ois) 0 = true →
        findDiscountById (create_order c4wdb c4wreq 0 ⟨2026, 3, 1⟩ 601).1.discount_codes
            c4wd.id = some { c4wd with used_count := c4wd.used_count + 1 }) ∧
      (∀ m, c4wd.max_uses = some m → 0 < m → m ≤ c4wd.used_count →
        (create_order c4wdb c4wreq 0 ⟨2026, 3, 1⟩ 601).1.discount_codes =
          c4wdb.discount_codes) ∧
      (∀ m, c4wd.max_uses = some m → 0 < m → c4wd.used_count ≤ m →
        ∀ d2, findDiscountById (create_order c4wdb c4wreq 0 ⟨2026, 3, 1⟩ 601).1.discount_codes
            c4wd.id = some d2 → d2.used_count ≤ 100)) ∧
    (findDiscountById (create_order c4wdb c4wreq 0 ⟨2026, 3, 1⟩ 601).1.discount_codes 5).map
      (fun d => d.used_count) = some 6 := by
  refine ⟨⟨rfl, by decide, by decide, by decide⟩, ?_, by decide⟩
  have h := c4_discount_usage c4wdb c4wreq 0 ⟨2026, 3, 1⟩ 601 "SALE10" c4wd rfl
    (by decide) (by decide) (by decide)
  refine ⟨h.1, h.2.1, ?_⟩
  intro m hm hmpos hle d2 hd2
  have hm100 : m = 100 := by
    have h2 : c4wd.max_uses = some 100 := rfl
    rw [h2] at hm
    exact (Option.some_inj.mp hm).symm
  subst hm100
  exact h.2.2 100 hm hmpos hle d2 hd2

/-- C5 (amended): a checkout carrying a discount code never fails because
of it.  When no active row matches the upper-cased code, the order
carries `discount_amount = 0`.  When a row `d` matches: if the code is
not yet started, expired, exhausted in the sense of the running code
(`max_uses` set, nonzero, and `used_count ≥ max_uses`), or the subtotal
is below a nonzero `min_order_value`, the amount is 0; otherwise the
amount is `subtotal * value / 100` (floor) for a percentage type and the
floor of the raw value for any other type. -/
theorem c5_discount_amount (db : DB) (req : OrderCreate) (now : Int) (today : OrderDate)
    (suffix : Nat) (c : String) (ois : List OrderItem)
    (hcode : req.discount_code = some c) (hcne : c.data.isEmpty = false)
    (hne : req.items.isEmpty = false)
    (hval : validateItems db req.items = Except.ok ois) :
    create_order db req now today suffix =
      (checkoutDB db req now today suffix ois,
       Except.ok (checkoutOrderRow db req now today suffix ois,
                  checkoutCreatedItems db ois)) ∧
    (findFirstDiscount db.discount_codes c = none →
      (checkoutOrderRow db req now today suffix ois).discount_amount = 0) ∧
    (∀ d, findFirstDiscount db.discount_codes c = some d →
      ((notStartedB d now || expiredB d now || exhaustedB d ||
          belowMinB d (checkoutSubtotal ois)) = true →
        (checkoutOrderRow db req now today suffix ois).discount_amount = 0) ∧
      (discountApplies d (checkoutSubtotal ois) now = true →
        (checkoutOrderRow db req now today suffix ois).discount_amount =
          discountAmount d (checkoutSubtotal ois))) := by
  refine ⟨(create_order_valid db req now today suffix ois hne hval).trans rfl, ?_, ?_⟩
  · intro hfnone
    show (applyDiscount db.discount_codes req.discount_code (checkoutSubtotal ois) now).1 = 0
    rw [hcode, applyDiscount_not_found db.discount_codes c (checkoutSubtotal ois) now hcne hfnone]
  · intro d hfind
    constructor
    · intro hinv
      show (applyDiscount db.discount_codes req.discount_code (checkoutSubtotal ois) now).1 = 0
      rw [hcode, applyDiscount_found db.discount_codes c (checkoutSubtotal ois) now d hcne hfind]
      have happF : discountApplies d (checkoutSubtotal ois) now = false := by
        unfold discountApplies
        simp only [Bool.or_eq_true] at hinv
        rcases hinv with ((h | h) | h) | h <;> simp [h]
      rw [happF]
      simp
    · intro happ
      show (applyDiscount db.discount_codes req.discount_code (checkoutSubtotal ois) now).1 =
        discountAmount d (checkoutSubtotal ois)
      rw [hcode, applyDiscount_found db.discount_codes c (checkoutSubtotal ois) now d hcne hfind]
      rw [if_pos happ]

/-- Catalog of the C5 counterexample: an active percentage code with
`max_uses` set to `0` and `used_count = 7`. -/
def c5xdb : DB :=
  { products := [{ id := 1, name_vi := "Hoa tulip", is_published := true, price := 450000,
                   sale_price := none, stock_quantity := 30 }]
    product_variants := []
    discount_codes := [{ id := 6, code := "SALE10", is_active := true,
                         discount_type := "percentage", discount_value := 10,
                         min_order_value := none, max_uses := some 0, used_count := 7,
                         starts_at := none, expires_at := none }]
    orders := []
    order_items := [] }

/-- Checkout request of the C5 counterexample. -/
def c5xreq : OrderCreate :=
  { items := [{ product_id := 1, variant_id := none, quantity := 1 }]
    shipping_address := { full_name := "Nguyen Van H", phone := "0900000007",
                          address_line := "33 Dien Bien Phu", ward := none, district := "1",
                          city := "Ho Chi Minh" }
    payment_method := "cod"
    customer_note := none
    delivery_date := none
    delivery_time_slot := none
    discount_code := some "SALE10" }

/-- Counterexample to C5 as stated: the matched code has
`used_count = 7 ≥ max_uses = 0`, exhausted per the claim, which demands
`discount_amount = 0`; the checkout instead applies the 10 percent
discount of 45000 (the running code treats the set `max_uses = 0` as
falsy and skips the exhaustion guard). -/
theorem c5_counterexample :
    (findFirstDiscount c5xdb.discount_codes "SALE10").map
      (fun d => (d.max_uses, d.used_count)) = some (some 0, 7) ∧
    (create_order c5xdb c5xreq 0 ⟨2026, 3, 2⟩ 700).2.map (fun r => r.1.discount_amount) =
      Except.ok 45000 ∧
    (45000 : Nat) ≠ 0 := by
  decide

/-- Catalog of the C5 witness: a currently valid percentage code. -/
def c5wdb : DB :=
  { products := [{ id := 1, name_vi := "Hoa mau don", is_published := true, price := 450000,
                   sale_price := none, stock_quantity := 30 }]
    product_variants := []
    discount_codes := [{ id := 6, code := "SALE10", is_active := true,
                         discount_type := "percentage", discount_value := 10,
                         min_order_value := some 100000, max_uses := some 100,
                         used_count := 5, starts_at := some (-100), expires_at := some 100 }]
    orders := []
    order_items := [] }

/-- The discount row of the C5 witness. -/
def c5wd : DiscountCode :=
  { id := 6, code := "SALE10", is_active := true, discount_type := "percentage",
    discount_value := 10, min_order_value := some 100000, max_uses := some 100,
    used_count := 5, starts_at := some (-100), expires_at := some 100 }

/-- Checkout request of the C5 witness. -/
def c5wreq : OrderCreate :=
  { items := [{ product_id := 1, variant_id := none, quantity := 1 }]
    shipping_address := { full_name := "Nguyen Van I", phone := "0900000008",
                          address_line := "44 Vo Van Tan", ward := none, district := "1",
                          city := "Ho Chi Minh" }
    payment_method := "cod"
    customer_note := none
    delivery_date := none
    delivery_time_slot := none
    discount_code := some "SALE10" }

/-- Validated rows of the C5 witness. -/
def c5wois : List OrderItem :=
  [{ order_id := 0, product_id := 1, variant_id := none, product_name := "Hoa mau don",
     variant_name := none, quantity := 1, unit_price := 450000, total_price := 450000 }]

/-- Witness for C5: the valid percentage code yields
`discount_amount = 45000` on the 450000 subtotal and the checkout
succeeds. -/
theorem c5_discount_amount_witness :
    (c5wreq.discount_code = some "SALE10" ∧ ("SALE10" : String).data.isEmpty = false ∧
      c5wreq.items.isEmpty = false ∧
      validateItems c5wdb c5wreq.items = Except.ok c5wois) ∧
    (create_order c5wdb c5wreq 0 ⟨2026, 3, 2⟩ 701 =
      (checkoutDB c5wdb c5wreq 0 ⟨2026, 3, 2⟩ 701 c5wois,
       Except.ok (checkoutOrderRow c5wdb c5wreq 0 ⟨2026, 3, 2⟩ 701 c5wois,
                  checkoutCreatedItems c5wdb c5wois)) ∧
      (findFirstDiscount c5wdb.discount_codes "SALE10" = none →
        (checkoutOrderRow c5wdb c5wreq 0 ⟨2026, 3, 2⟩ 701 c5wois).discount_amount = 0) ∧
      (∀ d, findFirstDiscount c5wdb.discount_codes "SALE10" = some d →
        ((notStartedB d 0 || expiredB d 0 || exhaustedB d ||
            belowMinB d (checkoutSubtotal c5wois)) = true →
          (checkoutOrderRow c5wdb c5wreq 0 ⟨2026, 3, 2⟩ 701 c5wois).discount_amount = 0) ∧
        (discountApplies d (checkoutSubtotal c5wois) 0 = true →
          (checkoutOrderRow c5wdb c5wreq 0 ⟨2026, 3, 2⟩ 701 c5wois).discount_amount =
            discountAmount d (checkoutSubtotal c5wois)))) ∧
    (checkoutOrderRow c5wdb c5wreq 0 ⟨2026, 3, 2⟩ 701 c5wois).discount_amount = 45000 ∧
    (checkoutOrderRow c5wdb c5wreq 0 ⟨2026, 3, 2⟩ 701 c5wois).total = 430000 := by
  refine ⟨⟨rfl, by decide, by decide, by decide⟩, ?_, by decide, by decide⟩
  exact c5_discount_amount c5wdb c5wreq 0 ⟨2026, 3, 2⟩ 701 "SALE10" c5wois rfl
    (by decide) (by decide) (by decide)

/-- Once the handler is past configuration, order lookup and token
exchange, and the provider protocol produced a final reported status,
the capture route reduces to a test of that status. -/
theorem capture_paypal_order_eq (st : PayPalSettings) (ex : PayPalExchange) (db : DB)
    (oid : Nat) (ppid : String) (now : Int) (o : Order) (s : String)
    (hc1 : pyFalsyStr st.paypal_client_id = false)
    (hc2 : pyFalsyStr st.paypal_client_secret = false)
    (hord : findOrder db oid = some o)
    (htok : ex.token_ok = true)
    (hstat : paypalFinalStatus ex = some s) :
    capture_paypal_order st ex db oid ppid now =
      (if s = "COMPLETED" then
        ({ db with orders := db.orders.map (paypalMarkPaid oid ppid now) },
         Except.ok "success")
      else (db, Except.error (400, "PayPal order status: " ++ s))) := by
  unfold capture_paypal_order
  rw [hc1, hc2]
  simp only [Bool.or_self, Bool.false_eq_true, if_false]
  rw [hord]
  dsimp only
  rw [htok]
  simp only [Bool.not_true, Bool.false_eq_true, if_false]
  rw [hstat]
  dsimp only
  by_cases hs : s = "COMPLETED"
  · rw [if_neg (by simp [hs]), if_pos hs]
  · rw [if_pos hs, if_neg hs]

/-- C6: for a PayPal capture on an existing order with configured
credentials and a completed token exchange, the order transitions to
paid/confirmed with `payment_method = "paypal"`,
`payment_intent_id = provider order id` and `paid_at` set, exactly when
the provider's final reported status is `COMPLETED`; any other reported
status yields a 400 carrying that status and leaves the whole database
unchanged. -/
theorem c6_paypal_capture (st : PayPalSettings) (ex : PayPalExchange) (db : DB)
    (oid : Nat) (ppid : String) (now : Int) (o : Order) (s : String)
    (hc1 : pyFalsyStr st.paypal_client_id = false)
    (hc2 : pyFalsyStr st.paypal_client_secret = false)
    (hord : findOrder db oid = some o)
    (htok : ex.token_ok = true)
    (hstat : paypalFinalStatus ex = some s) :
    (s = "COMPLETED" →
      (capture_paypal_order st ex db oid ppid now).2 = Except.ok "success" ∧
      findOrder (capture_paypal_order st ex db oid ppid now).1 oid =
        some { o with payment_status := "paid", order_status := "confirmed",
                      payment_method := "paypal", payment_intent_id := some ppid,
                      paid_at := some now } ∧
      ∀ o2 ∈ db.orders, o2.id ≠ oid →
        o2 ∈ (capture_paypal_order st ex db oid ppid now).1.orders) ∧
    (s ≠ "COMPLETED" →
      capture_paypal_order st ex db oid ppid now =
        (db, Except.error (400, "PayPal order status: " ++ s))) := by
  rw [capture_paypal_order_eq st ex db oid ppid now o s hc1 hc2 hord htok hstat]
  constructor
  · intro hs
    rw [if_pos hs]
    refine ⟨rfl, ?_, ?_⟩
    · show ((db.orders.map (paypalMarkPaid oid ppid now)).find? (fun x => x.id == oid)) = _
      have hkey := find?_map_keyed (fun x : Order => x.id) oid oid
        (fun x =>
          ({ x with payment_status := "paid", order_status := "confirmed",
                    payment_method := "paypal", payment_intent_id := some ppid,
                    paid_at := some now } : Order))
        (fun x => rfl) db.orders
      have hkey2 : ((db.orders.map (paypalMarkPaid oid ppid now)).find?
          (fun x => x.id == oid)) =
          (db.orders.find? (fun x => x.id == oid)).map (paypalMarkPaid oid ppid now) := hkey
      rw [hkey2]
      have hf : db.orders.find? (fun x => x.id == oid) = some o := hord
      rw [hf]
      have hoo : (o.id == oid) = true := by
        have := List.find?_some hf
        simpa using this
      show some (paypalMarkPaid oid ppid now o) = _
      unfold paypalMarkPaid
      rw [if_pos hoo]
    · intro o2 h2 hne2
      have hfix : paypalMarkPaid oid ppid now o2 = o2 := by
        unfold paypalMarkPaid
        rw [if_neg (by simp [hne2])]
      exact hfix ▸ List.mem_map_of_mem (paypalMarkPaid oid ppid now) h2
  · intro hs
    rw [if_neg hs]

/-- The database of the C6 witness: one pending order. -/
def c6db : DB :=
  { products := []
    product_variants := []
    discount_codes := []
    orders := [{ id := 3, order_number := "YF-20260301-600",
                 shipping_address := { full_name := "Nguyen Van K", phone := "0900000009",
                                       address_line := "55 Tran Hung Dao", ward := none,
                                       district := "1", city := "Ho Chi Minh" },
                 shipping_fee := 25000, subtotal := 450000, discount_amount := 0,
                 total := 475000, payment_method := "cod", customer_note := none,
                 delivery_date := none, delivery_time_slot := none,
                 order_status := "pending", payment_status := "pending",
                 payment_intent_id := none, paid_at := none }]
    order_items := [] }

/-- The order row of the C6 witness. -/
def c6order : Order :=
  { id := 3, order_number := "YF-20260301-600",
    shipping_address := { full_name := "Nguyen Van K", phone := "0900000009",
                          address_line := "55 Tran Hung Dao", ward := none,
                          district := "1", city := "Ho Chi Minh" },
    shipping_fee := 25000, subtotal := 450000, discount_amount := 0,
    total := 475000, payment_method := "cod", customer_note := none,
    delivery_date := none, delivery_time_slot := none,
    order_status := "pending", payment_status := "pending",
    payment_intent_id := none, paid_at := none }

/-- Configured credentials for the C6 witness. -/
def c6settings : PayPalSettings :=
  { paypal_client_id := some "client-id", paypal_client_secret := some "client-secret",
    paypal_mode := "sandbox" }

/-- A capture response reporting 201 COMPLETED. -/
def c6exchange : PayPalExchange :=
  { token_ok := true, capture_status_code := 201, capture_status := "COMPLETED",
    details_status_code := 200, details_status := "COMPLETED" }

/-- Witness for C6 at the completed capture. -/
theorem c6_paypal_capture_witness :
    (pyFalsyStr c6settings.paypal_client_id = false ∧
      pyFalsyStr c6settings.paypal_client_secret = false ∧
      findOrder c6db 3 = some c6order ∧ c6exchange.token_ok = true ∧
      paypalFinalStatus c6exchange = some "COMPLETED") ∧
    ((capture_paypal_order c6settings c6exchange c6db 3 "PAYPAL-77" 99).2 =
        Except.ok "success" ∧
      findOrder (capture_paypal_order c6settings c6exchange c6db 3 "PAYPAL-77" 99).1 3 =
        some { c6order with payment_status := "paid", order_status := "confirmed",
                            payment_method := "paypal", payment_intent_id := some "PAYPAL-77",
                            paid_at := some 99 }) := by
  have h := c6_paypal_capture c6settings c6exchange c6db 3 "PAYPAL-77" 99 c6order
    "COMPLETED" (by decide) (by decide) (by decide) rfl (by decide)
  refine ⟨⟨by decide, by decide, by decide, rfl, by decide⟩, ?_⟩
  rcases h.1 rfl with ⟨h1, h2, _⟩
  exact ⟨h1, h2⟩

/-- On a completed-session event carrying an order id, the webhook marks
the matching orders paid and answers received. -/
theorem stripe_webhook_eq (p : StripeWebhookPayload) (now : Int) (db : DB) (oid : Nat)
    (htype : p.event_type = some "checkout.session.completed")
    (hoid : p.metadata_order_id = some oid) :
    stripe_webhook p now db =
      ({ db with orders := db.orders.map (stripeMarkPaid oid now) }, true) := by
  unfold stripe_webhook
  rw [htype, hoid]
  simp

/-- Re-marking an order paid absorbs the earlier marking: the second
update overwrites exactly the fields the first one wrote. -/
theorem stripeMarkPaid_absorb (oid : Nat) (now1 now2 : Int) (o : Order) :
    stripeMarkPaid oid now2 (stripeMarkPaid oid now1 o) = stripeMarkPaid oid now2 o := by
  unfold stripeMarkPaid
  by_cases h : (o.id == oid) = true <;> simp [h]

/-- C7: the Stripe webhook is idempotent on completed-session events
with a valid order id: the first application marks the order
paid/confirmed with `paid_at` set and answers received; replaying the
same event against the resulting state is absorbed (it equals a single
application, so nothing is double-applied), replaying at the same
instant is a strict no-op, and the response is received both times. -/
theorem c7_stripe_webhook_idempotent (p : StripeWebhookPayload) (db : DB) (oid : Nat)
    (now1 now2 : Int)
    (htype : p.event_type = some "checkout.session.completed")
    (hoid : p.metadata_order_id = some oid) :
    (stripe_webhook p now1 db).2 = true ∧
    (stripe_webhook p now2 (stripe_webhook p now1 db).1).2 = true ∧
    (∀ o ∈ (stripe_webhook p now1 db).1.orders, o.id = oid →
      o.payment_status = "paid" ∧ o.order_status = "confirmed" ∧ o.paid_at = some now1) ∧
    (∀ o ∈ db.orders, o.id ≠ oid → o ∈ (stripe_webhook p now1 db).1.orders) ∧
    stripe_webhook p now2 (stripe_webhook p now1 db).1 = stripe_webhook p now2 db ∧
    stripe_webhook p now1 (stripe_webhook p now1 db).1 = stripe_webhook p now1 db := by
  have e1 := stripe_webhook_eq p now1 db oid htype hoid
  have habs : ∀ now2' : Int,
      stripe_webhook p now2' (stripe_webhook p now1 db).1 = stripe_webhook p now2' db := by
    intro now2'
    rw [e1]
    rw [stripe_webhook_eq p now2' _ oid htype hoid,
        stripe_webhook_eq p now2' db oid htype hoid]
    dsimp only
    rw [List.map_map]
    have hcomp : stripeMarkPaid oid now2' ∘ stripeMarkPaid oid now1 =
        stripeMarkPaid oid now2' := by
      funext o
      exact stripeMarkPaid_absorb oid now1 now2' o
    rw [hcomp]
  refine ⟨by rw [e1], ?_, ?_, ?_, habs now2, habs now1⟩
  · rw [habs now2, stripe_webhook_eq p now2 db oid htype hoid]
  · intro o ho hid
    rw [e1] at ho
    rcases List.mem_map.mp ho with ⟨x, hx, rfl⟩
    unfold stripeMarkPaid at hid ⊢
    by_cases h : (x.id == oid) = true
    · rw [if_pos h]
      exact ⟨rfl, rfl, rfl⟩
    · rw [if_neg h] at hid
      exact absurd (by simp [hid]) h
  · intro o ho hne
    rw [e1]
    have hfix : stripeMarkPaid oid now1 o = o := by
      unfold stripeMarkPaid
      rw [if_neg (by simp [hne])]
    exact hfix ▸ List.mem_map_of_mem (stripeMarkPaid oid now1) ho

/-- The database of the C7 witness: one pending order. -/
def c7db : DB :=
  { products := []
    product_variants := []
    discount_codes := []
    orders := [{ id := 4, order_number := "YF-20260302-700",
                 shipping_address := { full_name := "Nguyen Van L", phone := "0900000010",
                                       address_line := "66 Cach Mang Thang Tam", ward := none,
                                       district := "3", city := "Ho Chi Minh" },
                 shipping_fee := 25000, subtotal := 200000, discount_amount := 0,
                 total := 225000, payment_method := "stripe", customer_note := none,
                 delivery_date := none, delivery_time_slot := none,
                 order_status := "pending", payment_status := "pending",
                 payment_intent_id := some "cs_test_1", paid_at := none }]
    order_items := [] }

/-- The completed-session event of the C7 witness. -/
def c7payload : StripeWebhookPayload :=
  { event_type := some "checkout.session.completed", metadata_order_id := some 4 }

/-- Witness for C7: the event marks order 4 paid/confirmed, the replay is
absorbed, and both responses are received. -/
theorem c7_stripe_webhook_idempotent_witness :
    (c7payload.event_type = some "checkout.session.completed" ∧
      c7payload.metadata_order_id = some 4) ∧
    ((stripe_webhook c7payload 5 c7db).2 = true ∧
      (stripe_webhook c7payload 9 (stripe_webhook c7payload 5 c7db).1).2 = true ∧
      (∀ o ∈ (stripe_webhook c7payload 5 c7db).1.orders, o.id = 4 →
        o.payment_status = "paid" ∧ o.order_status = "confirmed" ∧ o.paid_at = some 5) ∧
      (∀ o ∈ c7db.orders, o.id ≠ 4 → o ∈ (stripe_webhook c7payload 5 c7db).1.orders) ∧
      stripe_webhook c7payload 9 (stripe_webhook c7payload 5 c7db).1 =
        stripe_webhook c7payload 9 c7db ∧
      stripe_webhook c7payload 5 (stripe_webhook c7payload 5 c7db).1 =
        stripe_webhook c7payload 5 c7db) ∧
    ((stripe_webhook c7payload 5 c7db).1.orders.map
      (fun o => (o.payment_status, o.order_status, o.paid_at)) =
        [("paid", "confirmed", some 5)]) := by
  refine ⟨⟨rfl, rfl⟩, ?_, by decide⟩
  exact c7_stripe_webhook_idempotent c7payload c7db 4 5 9 rfl rfl
